import Mathlib

/-!
# Verification of the JB2006 solar/geomagnetic indices table builder

Shallow embedding of `src/main.py` (Indices_parser).  The program assembles a
chronological table of solar and geomagnetic activity indices from four fixed
format text feeds, in two regimes: a "historical" regime (`SOLFSMY.TXT` /
`SOLRESAP.TXT`) with precomputed indices, and a "recent" regime
(`CELESTRAK.TXT` / `MGII.TXT`) where S10/S10B/XM10/XM10B are derived on the
fly from a UV-proxy measurement.

Modelling conventions:
* Python floats and the decimal strings stored in the table are modelled as
  exact rationals (`ℚ`); `round(x, 1)` is modelled as exact half-to-even
  rounding of `10*x` (`pyRound1`).
* `datetime` values are modelled at day granularity as `ℤ` (days since
  1970-01-01, computed by `daysFromCivil`); `timedelta(days = n)` is `+ n`,
  `(a - b).days` is `a - b`.  The program never uses sub-day resolution.
* a text feed is a list of parsed lines; numeric whitespace-split fields of a
  line are pre-parsed rationals (`fields`), and the few character-slice
  accesses (the year `line[2:6]` of `SOLFSMY.TXT`, the `YYYY MM DD` date
  slices of the recent feeds) are modelled as dedicated fields of the line
  structure, holding what those fixed-layout slices contain.
* a `FileNotFoundError` on `open` is modelled by an `Option` file argument
  being `none`; a raised-and-propagated Python exception is `Except.error`
  with the error-taxonomy name of the exception; a normal return is
  `Except.ok`.
-/

/-- Half-to-even ("banker's") rounding of a rational to an integer, the
rounding mode of Python's built-in `round`. -/
def roundHalfEven (y : ℚ) : ℤ :=
  let f := ⌊y⌋
  if y - f < 1/2 then f
  else if 1/2 < y - f then f + 1
  else if f % 2 = 0 then f else f + 1

/-- Python's `round(x, 1)`: round to one decimal place, half to even. -/
def pyRound1 (x : ℚ) : ℚ := (roundHalfEven (10 * x) : ℚ) / 10

/-- Days since 1970-01-01 of the Gregorian date `y-m-d` (Howard Hinnant's
`days_from_civil` algorithm).  This is the day-count model of a Python
`datetime`: all date comparisons and day differences in the source go
through this value. -/
def daysFromCivil (y m d : ℤ) : ℤ :=
  let y' := if m ≤ 2 then y - 1 else y
  let era := (if 0 ≤ y' then y' else y' - 399) / 400
  let yoe := y' - era * 400
  let mp := (m + 9) % 12
  let doy := (153 * mp + 2) / 5 + d - 1
  let doe := yoe * 365 + yoe / 4 - yoe / 100 + doy
  era * 146097 + doe - 719468

/-- `convert_calendar_to_mjd` (src/main.py:15-31): converts a `Y M D`
calendar date to its Modified Julian Date (via astropy:
`jd1 + jd2 - 2400000.5`).  On the day-count model a civil date `d` (days
since 1970-01-01) has MJD `d + 40587`. -/
def convert_calendar_to_mjd (d : ℤ) : ℚ := ((d + 40587 : ℤ) : ℚ)

/-- `convert_MG2_to_M10` (src/main.py:34-47):
`M10 = -1943.85 + 7606.56 * mgii`; returns `round(M10, 1)` if `M10 > 0`,
else the string `'0'` (the value 0). -/
def convert_MG2_to_M10 (mgii : ℚ) : ℚ :=
  let M10 := -1943.85 + 7606.56 * mgii
  if 0 < M10 then pyRound1 M10 else 0

/-- `convert_MG2_to_S10` (src/main.py:102-122):
`EUV = 110.324 * mgii - 28.065`; `S10 = -12.01 + 141.23 * (EUV / 1.9955)`;
returns `round(S10, 1)` if `S10 > 0`, else the value 0. -/
def convert_MG2_to_S10 (mgii : ℚ) : ℚ :=
  let EUV := 110.324 * mgii - 28.065
  let S10 := -12.01 + 141.23 * (EUV / 1.9955)
  if 0 < S10 then pyRound1 S10 else 0

/-- Weight used by the rolling-average loops of `make_S10B` / `make_XM10B`
(src/main.py:67-72 and 93-98).  The Python loop variable is
`i ∈ range(-81, -1)`, i.e. `i = -81 .. -2`; writing `i = k - 81` for
`k = 0 .. 79`, the weight `1 + (0.5 * (i + 1)) / 80` is
`1 + (0.5 * (k - 80)) / 80`. -/
def loopWeight (k : ℕ) : ℚ := 1 + (0.5 * ((k : ℚ) - 80)) / 80

/-- The shared loop body of `make_S10B` (src/main.py:50-73) and `make_XM10B`
(src/main.py:76-99), which are textually identical except for the table row
they read.  For `i ∈ range(-81, -1)` the code accumulates
`weight * float(row[i])` and `weight`, then returns
`round(sum / sum_weights, 1)`.  The negative index `row[i]` is element
`n + i` of a list of length `n`; the first access, `row[-81]`, raises
`IndexError` (modelled as `none`) whenever the row has fewer than 81
entries. -/
def rollingWeightedAvg (s : List ℚ) : Option ℚ :=
  if 81 ≤ s.length then
    let n := s.length
    let sw := ((List.range 80).map loopWeight).sum
    let sv := ((List.range 80).map (fun k => loopWeight k * s.getD (n - 81 + k) 0)).sum
    some (pyRound1 (sv / sw))
  else none

/-- `IndexTable`: the eight parallel sequences built by the program, the
Python value `[result_mjd, result_F10, result_F10B, result_S10, result_S10B,
result_XM10, result_XM10B, result_AP]` (src/main.py:237).  Field order
matches the Python list indices 0..7 (`array[3]` is `S10`, `array[5]` is
`XM10`, `array[-1] = array[7]` is `AP`). -/
structure IndexTable where
  mjd : List ℚ
  F10 : List ℚ
  F10B : List ℚ
  S10 : List ℚ
  S10B : List ℚ
  XM10 : List ℚ
  XM10B : List ℚ
  AP : List (List ℚ)
deriving DecidableEq, Repr

def emptyIndexTable : IndexTable := ⟨[], [], [], [], [], [], [], []⟩

/-- `make_S10B` (src/main.py:50-73): the rolling weighted average read from
`array[3]`, the S10 row. -/
def make_S10B (array : IndexTable) : Option ℚ := rollingWeightedAvg array.S10

/-- `make_XM10B` (src/main.py:76-99): the rolling weighted average read from
`array[5]`, the XM10 row. -/
def make_XM10B (array : IndexTable) : Option ℚ := rollingWeightedAvg array.XM10

/-- The rolling weighted average exactly as the specification words it
(spec §4.3): `avg = (Σ_{k=0}^{80} S(n-80+k) × W(k)) / (Σ_{k=0}^{80} W(k))`
with `W(k) = 1 + (0.5 × k) / 80`, over the 81 most recent samples including
the newest, result rounded to one decimal place.  Stated here only to be
compared against the source-derived `rollingWeightedAvg`. -/
def spec_rolling_weighted_avg (s : List ℚ) : ℚ :=
  let n := s.length
  let w : ℕ → ℚ := fun k => 1 + (0.5 * (k : ℚ)) / 80
  pyRound1 ((((List.range 81).map (fun k => w k * s.getD (n - 81 + k) 0)).sum) /
    (((List.range 81).map w).sum))

/-- One parsed line of a historical feed (`SOLFSMY.TXT` / `SOLRESAP.TXT`).
`fields` are the whitespace-split numeric fields (`line.split()`); `year`
is what the character slice `line[2:6]` holds, which in the feeds' fixed
layout is the 4-digit year that also appears as field 0.  Only the first
data line of `SOLFSMY.TXT` ever has its `year` read (src/main.py:194). -/
structure HistLine where
  year : ℤ
  fields : List ℚ
deriving DecidableEq, Repr

/-- `DayRecord`: the 15 comma-joined values produced for one day by
`create_data_for_res_file` (the source builds a CSV string which the caller
immediately re-splits on `','`; we model the record directly). -/
structure DayRecord where
  mjd : ℚ
  ap : List ℚ
  F10 : ℚ
  F10B : ℚ
  S10 : ℚ
  S10B : ℚ
  XM10 : ℚ
  XM10B : ℚ
deriving DecidableEq, Repr

/-- `create_data_for_res_file` (src/main.py:141-156): from one `SOLFSMY`
row and one `SOLRESAP` row, emit
`float(flux[2]) - 2400000.5, mag[3..10], flux[3..8]`. -/
def create_data_for_res_file (flux mag : List ℚ) : DayRecord :=
  { mjd := flux.getD 2 0 - 2400000.5
    ap := [mag.getD 3 0, mag.getD 4 0, mag.getD 5 0, mag.getD 6 0,
           mag.getD 7 0, mag.getD 8 0, mag.getD 9 0, mag.getD 10 0]
    F10 := flux.getD 3 0
    F10B := flux.getD 4 0
    S10 := flux.getD 5 0
    S10B := flux.getD 6 0
    XM10 := flux.getD 7 0
    XM10B := flux.getD 8 0 }

/-- The eight `result_*.append(...)` statements of one iteration of the
reading loop (src/main.py:221-233). -/
def appendDay (t : IndexTable) (r : DayRecord) : IndexTable :=
  ⟨t.mjd ++ [r.mjd], t.F10 ++ [r.F10], t.F10B ++ [r.F10B], t.S10 ++ [r.S10],
   t.S10B ++ [r.S10B], t.XM10 ++ [r.XM10], t.XM10B ++ [r.XM10B], t.AP ++ [r.ap]⟩

/-- The reading loop `for i in range(0, end_date_delta)` of
`make_indices_array_before_45_days` (src/main.py:221-233): each iteration
reads one line from each feed and appends one entry to every sequence.
Reading past the end of a feed yields an empty line, whose split has no
field 2 resp. 10, so the record construction raises `IndexError`; a line
with too few fields likewise raises `IndexError`
(`create_data_for_res_file` reads flux fields 2..8 and magnitude fields
3..10). -/
def histLoop : ℕ → List HistLine → List HistLine → IndexTable → Except String IndexTable
  | 0, _, _, t => .ok t
  | n + 1, fluxRows, magRows, t =>
    match fluxRows, magRows with
    | fl :: ftl, ml :: mtl =>
      if 9 ≤ fl.fields.length ∧ 11 ≤ ml.fields.length then
        histLoop n ftl mtl (appendDay t (create_data_for_res_file fl.fields ml.fields))
      else .error "IndexError"
    | _, _ => .error "IndexError"

/-- `make_indices_array_before_45_days` (src/main.py:159-237).
The source opens `SOLFSMY.TXT` and `SOLRESAP.TXT` (absence = argument
`none`; the `except FileNotFoundError` handler prints and falls through to
the final `return`, so the function returns the still-empty table as a
normal result).  It then skips 4 header lines of each feed plus 23 more of
`SOLRESAP`, reads the first `SOLFSMY` data line (whose `[2:6]` slice gives
the epoch year; if the feed has no data line, `int('')` raises
`ValueError`), validates the requested range against
`[Jan 1 of that year, today - 1 day]` and `start ≤ end` (raising on
violation — the raises are not caught by the `except FileNotFoundError`
clause and propagate), advances both feeds by `start_date_delta - 1` lines
(`range` of a negative is empty) plus one extra `SOLRESAP` line, and runs
the reading loop for `(end_date - start_date).days` iterations. -/
def make_indices_array_before_45_days (solfsmy solresap : Option (List HistLine))
    (start_date end_date today : ℤ) : Except String IndexTable :=
  match solfsmy, solresap with
  | some fluxFile, some magFile =>
    let fluxData := fluxFile.drop 4
    let magData := magFile.drop (4 + 23)
    match fluxData with
    | [] => .error "ValueError"
    | firstFlux :: fluxRest =>
      let index_birth_date := daysFromCivil firstFlux.year 1 1
      if start_date < index_birth_date ∨ today - 1 < end_date then
        .error "OutOfRangeDate"
      else if end_date < start_date then
        .error "InvertedRange"
      else
        let start_date_delta := (start_date - index_birth_date).toNat
        let fluxRows := fluxRest.drop (start_date_delta - 1)
        let magRows := (magData.drop (start_date_delta - 1)).drop 1
        let end_date_delta := (end_date - start_date).toNat
        histLoop end_date_delta fluxRows magRows emptyIndexTable
  | _, _ => .ok emptyIndexTable

/-- One parsed line of `CELESTRAK.TXT`: `date` is what the slice
`line[0:10]` (`'YYYY MM DD'`) parses to, `fields` are the whitespace-split
numeric fields (ap sub-indices at 14..21, F10 at 26, F10B at 28). -/
structure CelLine where
  date : ℤ
  fields : List ℚ
deriving DecidableEq, Repr

/-- One parsed line of `MGII.TXT`: `date` is what the character slices
`line[1:5]` (year) and `line[13:18]` (month, day) parse to; the proxy value
is the last whitespace-split field. -/
structure MgiiLine where
  date : ℤ
  fields : List ℚ
deriving DecidableEq, Repr

/-- The `while ... != start_date: readline()` scan loops of
`update_indices_array_after_45_days` (src/main.py:254-262): consume lines
until one dated `start_date` is found; at end of file `readline` returns
`''` whose date slice fails `strptime` (`ValueError`, modelled `none`). -/
def scanCel (d : ℤ) : List CelLine → Option (CelLine × List CelLine)
  | [] => none
  | l :: ls => if l.date = d then some (l, ls) else scanCel d ls

def scanMgii (d : ℤ) : List MgiiLine → Option (MgiiLine × List MgiiLine)
  | [] => none
  | l :: ls => if l.date = d then some (l, ls) else scanMgii d ls

/-- The main `while` loop of `update_indices_array_after_45_days`
(src/main.py:265-280).  `curC?`/`curM?` are `current_celestrak_line` /
`current_mgii_line` (`none` = the empty string read at end of file: parsing
its date raises `ValueError`, taking `split()[-1]` raises `IndexError`).
Each iteration appends, in source order: the MJD of
`current_date_line_celestrak` — a variable set by the scan loop to
`start_date` and never updated afterwards, so every appended MJD is that of
`start_date` —, celestrak fields 26 and 28, `convert_MG2_to_S10(MG2)`,
`make_S10B` of the grown table, `convert_MG2_to_M10(MG2)`, `make_XM10B` of
the grown table, and celestrak fields 14..21; then advances both feeds.
A field index beyond the line's fields raises `IndexError`. -/
def stitchLoop (startD endD : ℤ) : List CelLine → List MgiiLine →
    Option CelLine → Option MgiiLine → IndexTable → Except String IndexTable
  | _, _, none, _, _ => .error "ValueError"
  | cels, mgs, some curC, curM?, t =>
    if curC.date = endD then .ok t
    else
      match curM? with
      | none => .error "IndexError"
      | some curM =>
        if curM.fields.length = 0 ∨ curC.fields.length < 29 then .error "IndexError"
        else
          let MG2 := curM.fields.getLast?.getD 0
          let t1 : IndexTable :=
            { t with mjd := t.mjd ++ [convert_calendar_to_mjd startD]
                     F10 := t.F10 ++ [curC.fields.getD 26 0]
                     F10B := t.F10B ++ [curC.fields.getD 28 0]
                     S10 := t.S10 ++ [convert_MG2_to_S10 MG2] }
          match make_S10B t1 with
          | none => .error "IndexError"
          | some s10b =>
            let t2 : IndexTable :=
              { t1 with S10B := t1.S10B ++ [s10b]
                        XM10 := t1.XM10 ++ [convert_MG2_to_M10 MG2] }
            match make_XM10B t2 with
            | none => .error "IndexError"
            | some xm10b =>
              let t3 : IndexTable :=
                { t2 with XM10B := t2.XM10B ++ [xm10b]
                          AP := t2.AP ++ [[curC.fields.getD 14 0, curC.fields.getD 15 0,
                            curC.fields.getD 16 0, curC.fields.getD 17 0, curC.fields.getD 18 0,
                            curC.fields.getD 19 0, curC.fields.getD 20 0, curC.fields.getD 21 0]] }
              match cels, mgs with
              | [], _ => .error "ValueError"
              | c :: cs, [] => stitchLoop startD endD cs [] (some c) none t3
              | c :: cs, m :: ms => stitchLoop startD endD cs ms (some c) (some m) t3

/-- `update_indices_array_after_45_days` (src/main.py:240-283).
Opens `CELESTRAK.TXT` and `MGII.TXT` (absence = `none`: the
`except FileNotFoundError` handler prints and the function returns with the
table unmodified), skips 17 celestrak header lines, scans each feed for the
line dated `start_date` (both scan conditions start from the sentinel date
`'1996 01 01'`, so if `start_date` is exactly 1996-01-01 neither loop runs
and the main loop parses the initial empty line, raising `ValueError`), and
runs the main stitching loop. -/
def update_indices_array_after_45_days (celestrak : Option (List CelLine))
    (mgii : Option (List MgiiLine)) (array : IndexTable)
    (start_date end_date : ℤ) : Except String IndexTable :=
  match celestrak, mgii with
  | some celFile, some mgiiFile =>
    if start_date = daysFromCivil 1996 1 1 then .error "ValueError"
    else
      match scanCel start_date (celFile.drop 17) with
      | none => .error "ValueError"
      | some (curC, celRest) =>
        match scanMgii start_date mgiiFile with
        | none => .error "ValueError"
        | some (curM, mgiiRest) =>
          stitchLoop start_date end_date celRest mgiiRest (some curC) (some curM) array
  | _, _ => .ok array

/-- `make_str_for_csv` (src/main.py:125-138): project position `idx` of the
table into one output row in column order
`mjd, ap1..ap8, F10, F81(F10B), S10, S10B, XM10, XM10B`
(`array[0][idx], *array[-1][idx], array[1][idx], ..., array[6][idx]`).
A position beyond any sequence's length raises `IndexError` (`none`). -/
def make_str_for_csv (t : IndexTable) (idx : ℕ) : Option (List ℚ) :=
  if idx < t.mjd.length ∧ idx < t.AP.length ∧ idx < t.F10.length ∧
     idx < t.F10B.length ∧ idx < t.S10.length ∧ idx < t.S10B.length ∧
     idx < t.XM10.length ∧ idx < t.XM10B.length then
    some ([t.mjd.getD idx 0] ++ t.AP.getD idx [] ++
      [t.F10.getD idx 0, t.F10B.getD idx 0, t.S10.getD idx 0,
       t.S10B.getD idx 0, t.XM10.getD idx 0, t.XM10B.getD idx 0])
  else none

/-- The output loop of `make_csv_for_JB2006`
(src/main.py:301-302 and 313-314): `for i in range(0, delta):
file.write(make_str_for_csv(tmp, i))`.  An `IndexError` raised by
`make_str_for_csv` is not caught (the surrounding `try` catches only
`FileNotFoundError`) and propagates. -/
def emitRows (t : IndexTable) (delta : ℕ) : Except String (List (List ℚ)) :=
  match (List.range delta).mapM (make_str_for_csv t) with
  | some rows => .ok rows
  | none => .error "IndexError"

/-- `make_csv_for_JB2006` (src/main.py:286-316).  `delta` is computed from
the ORIGINAL `end_date` before any reassignment.  If
`end_date ≤ today - 45 days`, only the historical reader runs; otherwise the
source reassigns `end_date := end_date - 45 days`, runs the historical
reader up to the reassigned date, and then calls
`update_indices_array_after_45_days(tmp, end_date - 45 days, end_date)` —
with the already-reassigned `end_date`, i.e. on the range
`[original_end - 90, original_end - 45)`.  Finally `delta` rows are
emitted.  The result is the written row list; an uncaught exception from
either phase or from emission propagates. -/
def make_csv_for_JB2006 (solfsmy solresap : Option (List HistLine))
    (celestrak : Option (List CelLine)) (mgii : Option (List MgiiLine))
    (start_date end_date today : ℤ) : Except String (List (List ℚ)) :=
  let delta := (end_date - start_date).toNat
  if end_date ≤ today - 45 then
    (make_indices_array_before_45_days solfsmy solresap start_date end_date today).bind
      (fun tmp => emitRows tmp delta)
  else
    let end_date2 := end_date - 45
    (make_indices_array_before_45_days solfsmy solresap start_date end_date2 today).bind
      (fun tmp =>
        (update_indices_array_after_45_days celestrak mgii tmp (end_date2 - 45) end_date2).bind
          (fun tmp2 => emitRows tmp2 delta))

/-! ### Concrete feed data used by counterexamples and witnesses -/

/-- An S10 history of 81 entries: 80 zeros, then a just-appended 100. -/
def exC1S10 : List ℚ := List.replicate 80 0 ++ [100]

def exC1Table : IndexTable := { emptyIndexTable with S10 := exC1S10 }

def exC10Table : IndexTable :=
  { emptyIndexTable with S10 := List.replicate 81 2, XM10 := List.replicate 81 7 }

def exEpoch : ℤ := daysFromCivil 1997 1 1

def exStart : ℤ := exEpoch + 1

def exEnd : ℤ := exStart + 135

def exToday : ℤ := exStart + 100

def histDummy : HistLine := ⟨0, []⟩

/-- `SOLFSMY.TXT` data row `j`, the row of calendar day `exEpoch + j`: year
1997, day-of-year, the day's Julian date (MJD + 2400000.5), then
F10 = 70, F10B = 71, S10 = 100, S10B = 73, XM10 = 100, XM10B = 75. -/
def exFluxLine (j : ℕ) : HistLine :=
  ⟨1997, [1997, (j : ℚ), ((exEpoch + j + 40587 : ℤ) : ℚ) + 2400000.5, 70, 71, 100, 73, 100, 75]⟩

def exFluxFile : List HistLine :=
  List.replicate 4 histDummy ++ (List.range 91).map exFluxLine

def exMagLine : HistLine := ⟨0, [1997, 0, 0, 1, 2, 3, 4, 5, 6, 7, 8]⟩

def exMagFile : List HistLine :=
  List.replicate 27 histDummy ++ List.replicate 91 exMagLine

def celDummy : CelLine := ⟨0, []⟩

/-- 29 whitespace-split celestrak fields; field `i` holds the value `i`, so
the AP sub-indices (fields 14..21) are 14..21, F10 (field 26) is 26 and
F10B (field 28) is 28. -/
def exCelFields : List ℚ := (List.range 29).map (fun i => (i : ℚ))

/-- Celestrak feed with daily rows covering exactly `[exEnd - 45, exEnd]` —
the date range the specification says the recent-regime stitcher consumes
for the request `[exStart, exEnd)`. -/
def celC2File : List CelLine :=
  List.replicate 17 celDummy ++ (List.range 46).map (fun j => ⟨exEnd - 45 + j, exCelFields⟩)

/-- MGII feed with daily rows covering exactly `[exEnd - 45, exEnd]`. -/
def mgiiC2File : List MgiiLine :=
  (List.range 46).map (fun j => ⟨exEnd - 45 + j, [27/100]⟩)

def exC3Start : ℤ := daysFromCivil 2024 3 1

/-- A table holding 81 days of constant history (S10 = XM10 = 109.9),
enough lead-in for the rolling averages. -/
def exC3Table : IndexTable :=
  { emptyIndexTable with S10 := List.replicate 81 (1099/10),
                         XM10 := List.replicate 81 (1099/10) }

/-- Celestrak feed with daily rows for `exC3Start .. exC3Start + 2`. -/
def celC3File : List CelLine :=
  List.replicate 17 celDummy ++
    [⟨exC3Start, exCelFields⟩, ⟨exC3Start + 1, exCelFields⟩, ⟨exC3Start + 2, exCelFields⟩]

/-- MGII feed with daily rows for `exC3Start .. exC3Start + 2`. -/
def mgiiC3File : List MgiiLine :=
  [⟨exC3Start, [27/100]⟩, ⟨exC3Start + 1, [27/100]⟩, ⟨exC3Start + 2, [27/100]⟩]

/-- One `SOLFSMY.TXT` row whose field 2 (the Julian-date column) is
2450449.5. -/
def cxFluxRow : List ℚ := [1997, 32, 2450449.5, 1, 2, 3, 4, 5, 6]

def cxMagRow : List ℚ := [1997, 32, 0, 11, 12, 13, 14, 15, 16, 17, 18]

def wFluxRow0 : HistLine := ⟨1997, [1997, 0, 2450450.5, 60, 61, 62, 63, 64, 65]⟩

def wFluxRow1 : HistLine := ⟨1997, [1997, 1, 2450451.5, 70, 71, 72, 73, 74, 75]⟩

def wFluxFile : List HistLine :=
  List.replicate 4 histDummy ++ [wFluxRow0, wFluxRow1]

def wMagRow1 : HistLine := ⟨0, [1997, 0, 0, 1, 2, 3, 4, 5, 6, 7, 8]⟩

def wMagFile : List HistLine :=
  List.replicate 27 histDummy ++
    [⟨0, [1997, 0, 0, 91, 92, 93, 94, 95, 96, 97, 98]⟩, wMagRow1]

/-- The table the historical reader produces for the one-day range
`[exEpoch + 1, exEpoch + 2)` from `wFluxFile` / `wMagFile`: one appended
record extracted from `wFluxRow1` / `wMagRow1`. -/
def wTable : IndexTable :=
  appendDay emptyIndexTable (create_data_for_res_file wFluxRow1.fields wMagRow1.fields)

/-! ### Properties of the rounding helper -/

lemma roundHalfEven_bounds (y : ℚ) : ⌊y⌋ ≤ roundHalfEven y ∧ roundHalfEven y ≤ ⌊y⌋ + 1 := by
  dsimp only [roundHalfEven]
  split_ifs <;> omega

lemma roundHalfEven_mono {a b : ℚ} (h : a ≤ b) : roundHalfEven a ≤ roundHalfEven b := by
  rcases eq_or_lt_of_le (Int.floor_mono h) with hf | hf
  · have hab : a - (⌊a⌋ : ℚ) ≤ b - (⌊b⌋ : ℚ) := by
      have : ((⌊a⌋ : ℤ) : ℚ) = ((⌊b⌋ : ℤ) : ℚ) := by exact_mod_cast hf
      linarith
    dsimp only [roundHalfEven]
    rw [← hf]
    split_ifs <;> first | omega | (exfalso; linarith)
  · calc roundHalfEven a ≤ ⌊a⌋ + 1 := (roundHalfEven_bounds a).2
      _ ≤ ⌊b⌋ := by omega
      _ ≤ roundHalfEven b := (roundHalfEven_bounds b).1

lemma roundHalfEven_nonneg {y : ℚ} (h : 0 ≤ y) : 0 ≤ roundHalfEven y := by
  have h0 : 0 ≤ ⌊y⌋ := Int.floor_nonneg.mpr h
  have := (roundHalfEven_bounds y).1
  omega

lemma pyRound1_mono {a b : ℚ} (h : a ≤ b) : pyRound1 a ≤ pyRound1 b := by
  have h10 : (10 : ℚ) * a ≤ 10 * b := by linarith
  have hz := roundHalfEven_mono h10
  have hz' : ((roundHalfEven (10 * a) : ℤ) : ℚ) ≤ ((roundHalfEven (10 * b) : ℤ) : ℚ) := by
    exact_mod_cast hz
  unfold pyRound1
  linarith

lemma pyRound1_nonneg {x : ℚ} (h : 0 ≤ x) : 0 ≤ pyRound1 x := by
  have h10 : (0 : ℚ) ≤ 10 * x := by linarith
  have hz := roundHalfEven_nonneg h10
  have hz' : (0 : ℚ) ≤ ((roundHalfEven (10 * x) : ℤ) : ℚ) := by exact_mod_cast hz
  unfold pyRound1
  linarith

lemma roundHalfEven_eq_of_lt_half {y : ℚ} {f : ℤ} (h1 : (f : ℚ) ≤ y)
    (h2 : y - f < 1/2) : roundHalfEven y = f := by
  have hf : ⌊y⌋ = f := Int.floor_eq_iff.mpr ⟨h1, by linarith⟩
  dsimp only [roundHalfEven]
  rw [hf, if_pos h2]

lemma roundHalfEven_eq_of_half_lt {y : ℚ} {f : ℤ} (h1 : (f : ℚ) ≤ y)
    (h2 : 1/2 < y - f) (h3 : y < f + 1) : roundHalfEven y = f + 1 := by
  have hf : ⌊y⌋ = f := Int.floor_eq_iff.mpr ⟨h1, h3⟩
  dsimp only [roundHalfEven]
  rw [hf, if_neg (by linarith), if_pos h2]

lemma pyRound1_eq_of_lt_half {x : ℚ} {f : ℤ} (h1 : (f : ℚ) ≤ 10 * x)
    (h2 : 10 * x - f < 1/2) : pyRound1 x = (f : ℚ) / 10 := by
  unfold pyRound1
  rw [roundHalfEven_eq_of_lt_half h1 h2]

lemma pyRound1_eq_of_half_lt {x : ℚ} {f : ℤ} (h1 : (f : ℚ) ≤ 10 * x)
    (h2 : 1/2 < 10 * x - f) (h3 : 10 * x < f + 1) : pyRound1 x = ((f : ℚ) + 1) / 10 := by
  unfold pyRound1
  rw [roundHalfEven_eq_of_half_lt h1 h2 h3]
  push_cast
  ring

lemma pyRound1_zero : pyRound1 0 = 0 := by
  have := pyRound1_eq_of_lt_half (x := 0) (f := 0) (by norm_num) (by norm_num)
  simpa using this

/-! ### Summation helpers -/

lemma listRangeMapSum (n : ℕ) (f : ℕ → ℚ) :
    ((List.range n).map f).sum = ∑ k in Finset.range n, f k := by
  induction n with
  | zero => simp
  | succ m ih =>
    rw [List.range_succ, List.map_append, List.sum_append, Finset.sum_range_succ, ih]
    simp

/-- Closed form of the source's rolling-average loop: for a history with at
least 81 entries, `rollingWeightedAvg` is the rounded quotient of the two
80-term sums over window positions `n - 81 + k`, `k = 0 .. 79`. -/
lemma rollingWeightedAvg_eq (s : List ℚ) (h : 81 ≤ s.length) :
    rollingWeightedAvg s = some (pyRound1
      ((∑ k in Finset.range 80, loopWeight k * s.getD (s.length - 81 + k) 0) /
        (∑ k in Finset.range 80, loopWeight k))) := by
  dsimp only [rollingWeightedAvg]
  rw [if_pos h, listRangeMapSum, listRangeMapSum]

lemma sum_range_cast_q (n : ℕ) (v : ℕ) (h : (∑ i in Finset.range n, i) = v) :
    (∑ k in Finset.range n, (k : ℚ)) = (v : ℚ) := by
  rw [← Nat.cast_sum, h]

/-! ### C1: the rolling weighted average vs the specification formula -/

/-- C1 (counterexample): with 81 S10 entries — 80 zeros then a just-appended
100 — the code returns 0.0, while the specification's formula
`(Σ_{k=0}^{80} S(n-80+k)·W(k)) / (Σ_{k=0}^{80} W(k))`, `W(k) = 1+(0.5·k)/80`,
yields 150/101.25 ≈ 1.4815, i.e. 1.5 after rounding: the loop
`for i in range(-81, -1)` never reads the newest sample and its weights are
`0.5 .. 0.99375`, not `1.0 .. 1.5`. -/
theorem C1_counterexample :
    make_S10B exC1Table = some 0 ∧
    spec_rolling_weighted_avg exC1Table.S10 = 3/2 ∧
    make_S10B exC1Table ≠ some (spec_rolling_weighted_avg exC1Table.S10) := by
  have hS10 : exC1Table.S10 = exC1S10 := rfl
  have hlen : exC1S10.length = 81 := by simp [exC1S10]
  have hgetlow : ∀ k, k < 80 → exC1S10.getD k 0 = 0 := by
    intro k hk
    unfold exC1S10
    rw [List.getD_eq_getElem?_getD, List.getElem?_append,
      if_pos (by simpa using hk), List.getElem?_replicate, if_pos hk]
    rfl
  have hget80 : exC1S10.getD 80 0 = 100 := by
    unfold exC1S10
    rw [List.getD_eq_getElem?_getD, List.getElem?_append, if_neg (by simp)]
    simp
  have hcode : make_S10B exC1Table = some 0 := by
    rw [make_S10B, hS10, rollingWeightedAvg_eq _ (by omega)]
    have hz : (∑ k in Finset.range 80,
        loopWeight k * exC1S10.getD (exC1S10.length - 81 + k) 0) = 0 := by
      refine Finset.sum_eq_zero (fun k hk => ?_)
      rw [hlen]
      have hk80 : k < 80 := Finset.mem_range.mp hk
      have hidx : (81 : ℕ) - 81 + k = k := by omega
      rw [hidx, hgetlow k hk80, mul_zero]
    rw [hz, zero_div, pyRound1_zero]
  have hsum80 : (∑ k in Finset.range 80, (k : ℚ)) = 3160 :=
    sum_range_cast_q 80 3160 (by decide)
  have hspec : spec_rolling_weighted_avg exC1S10 = 3/2 := by
    dsimp only [spec_rolling_weighted_avg]
    rw [listRangeMapSum, listRangeMapSum, hlen]
    have hz80 : (∑ k in Finset.range 80,
        (1 + 0.5 * (k : ℚ) / 80) * exC1S10.getD (81 - 81 + k) 0) = 0 := by
      refine Finset.sum_eq_zero (fun k hk => ?_)
      have hk80 : k < 80 := Finset.mem_range.mp hk
      have hidx : (81 : ℕ) - 81 + k = k := by omega
      rw [hidx, hgetlow k hk80, mul_zero]
    have hden80 : (∑ k in Finset.range 80, (1 + 0.5 * (k : ℚ) / 80)) = 399/4 := by
      have hcongr : (∑ k in Finset.range 80, (1 + 0.5 * (k : ℚ) / 80)) =
          ∑ k in Finset.range 80, (1 + (1/160) * (k : ℚ)) := by
        refine Finset.sum_congr rfl (fun k _ => ?_)
        ring
      rw [hcongr, Finset.sum_add_distrib, ← Finset.mul_sum, hsum80]
      norm_num
    have hnum : (∑ k in Finset.range 81,
        (1 + 0.5 * (k : ℚ) / 80) * exC1S10.getD (81 - 81 + k) 0) = 150 := by
      rw [Finset.sum_range_succ, hz80, zero_add]
      have hidx80 : (81 : ℕ) - 81 + 80 = 80 := by omega
      rw [hidx80, hget80]
      norm_num
    have hden81 : (∑ k in Finset.range 81, (1 + 0.5 * (k : ℚ) / 80)) = 405/4 := by
      rw [Finset.sum_range_succ, hden80]
      norm_num
    rw [hnum, hden81]
    rw [show (150 : ℚ) / (405/4) = 40/27 by norm_num]
    rw [pyRound1_eq_of_half_lt (f := 14) (by norm_num) (by norm_num) (by norm_num)]
    norm_num
  refine ⟨hcode, hS10 ▸ hspec, ?_⟩
  rw [hcode, hS10, hspec]
  intro hEq
  exact absurd (Option.some.inj hEq) (by norm_num)

/-- C1 (amended): for every table whose S10 (resp. XM10) row has at least 81
entries, `make_S10B` (resp. `make_XM10B`) returns, rounded to one decimal
place, `(Σ_{k=0}^{79} S(n-81+k)·W(k)) / (Σ_{k=0}^{79} W(k))` with
`W(k) = 1 + (0.5·(k-80))/80`: the window is the 80 samples PRECEDING the
just-appended newest element (which is excluded), and the weights rise
linearly from 0.5 at the oldest to 0.99375 at the last included sample. -/
theorem C1_amended_thm (t : IndexTable) (h3 : 81 ≤ t.S10.length)
    (h5 : 81 ≤ t.XM10.length) :
    make_S10B t = some (pyRound1
      ((∑ k in Finset.range 80, loopWeight k * t.S10.getD (t.S10.length - 81 + k) 0) /
        (∑ k in Finset.range 80, loopWeight k))) ∧
    make_XM10B t = some (pyRound1
      ((∑ k in Finset.range 80, loopWeight k * t.XM10.getD (t.XM10.length - 81 + k) 0) /
        (∑ k in Finset.range 80, loopWeight k))) :=
  ⟨rollingWeightedAvg_eq _ h3, rollingWeightedAvg_eq _ h5⟩

/-- Witness for `C1_amended_thm` at a concrete 81-entry table. -/
theorem C1_amended_witness :
    81 ≤ exC10Table.S10.length ∧ 81 ≤ exC10Table.XM10.length ∧
    (make_S10B exC10Table = some (pyRound1
      ((∑ k in Finset.range 80,
          loopWeight k * exC10Table.S10.getD (exC10Table.S10.length - 81 + k) 0) /
        (∑ k in Finset.range 80, loopWeight k))) ∧
     make_XM10B exC10Table = some (pyRound1
      ((∑ k in Finset.range 80,
          loopWeight k * exC10Table.XM10.getD (exC10Table.XM10.length - 81 + k) 0) /
        (∑ k in Finset.range 80, loopWeight k)))) :=
  ⟨by decide, by decide, C1_amended_thm exC10Table (by decide) (by decide)⟩

/-! ### C5: fewer than 81 history entries -/

/-- C5: invoked on a table whose relevant history row (S10 for `make_S10B`,
XM10 for `make_XM10B`) has fewer than 81 entries, the rolling-average
computation fails — the first access `row[-81]` raises `IndexError`
(modelled `none`) — instead of averaging a shorter window. -/
theorem C5_insufficient_history (t : IndexTable) :
    (t.S10.length < 81 → make_S10B t = none) ∧
    (t.XM10.length < 81 → make_XM10B t = none) := by
  constructor <;> intro h
  · dsimp only [make_S10B, rollingWeightedAvg]
    rw [if_neg (by omega)]
  · dsimp only [make_XM10B, rollingWeightedAvg]
    rw [if_neg (by omega)]

/-- Witness for `C5_insufficient_history` at the empty table. -/
theorem C5_witness :
    emptyIndexTable.S10.length < 81 ∧ emptyIndexTable.XM10.length < 81 ∧
    make_S10B emptyIndexTable = none ∧ make_XM10B emptyIndexTable = none :=
  ⟨by decide, by decide, (C5_insufficient_history emptyIndexTable).1 (by decide),
   (C5_insufficient_history emptyIndexTable).2 (by decide)⟩

/-! ### C7: conversion-formula postconditions -/

/-- C7: `convert_MG2_to_M10 p` returns `-1943.85 + 7606.56·p` rounded to one
decimal when that value is positive and 0 when it is ≤ 0, and
`convert_MG2_to_S10 p` returns `-12.01 + 141.23·((110.324·p - 28.065)/1.9955)`
rounded to one decimal when positive and 0 when ≤ 0. -/
theorem C7_conversion_postconditions (p : ℚ) :
    (0 < -1943.85 + 7606.56 * p →
      convert_MG2_to_M10 p = pyRound1 (-1943.85 + 7606.56 * p)) ∧
    (-1943.85 + 7606.56 * p ≤ 0 → convert_MG2_to_M10 p = 0) ∧
    (0 < -12.01 + 141.23 * ((110.324 * p - 28.065) / 1.9955) →
      convert_MG2_to_S10 p =
        pyRound1 (-12.01 + 141.23 * ((110.324 * p - 28.065) / 1.9955))) ∧
    (-12.01 + 141.23 * ((110.324 * p - 28.065) / 1.9955) ≤ 0 →
      convert_MG2_to_S10 p = 0) := by
  refine ⟨fun h => ?_, fun h => ?_, fun h => ?_, fun h => ?_⟩
  · dsimp only [convert_MG2_to_M10]
    rw [if_pos h]
  · dsimp only [convert_MG2_to_M10]
    rw [if_neg (not_lt.mpr h)]
  · dsimp only [convert_MG2_to_S10]
    rw [if_pos h]
  · dsimp only [convert_MG2_to_S10]
    rw [if_neg (not_lt.mpr h)]

/-- Witness for `C7_conversion_postconditions`: the positive branches at
`p = 0.27` and the clamp branches at `p = 0`. -/
theorem C7_witness :
    (0 < -1943.85 + 7606.56 * (27/100 : ℚ)) ∧
    convert_MG2_to_M10 (27/100) = pyRound1 (-1943.85 + 7606.56 * (27/100 : ℚ)) ∧
    (-1943.85 + 7606.56 * (0 : ℚ) ≤ 0) ∧
    convert_MG2_to_M10 0 = 0 ∧
    (0 < -12.01 + 141.23 * ((110.324 * (27/100 : ℚ) - 28.065) / 1.9955)) ∧
    convert_MG2_to_S10 (27/100) =
      pyRound1 (-12.01 + 141.23 * ((110.324 * (27/100 : ℚ) - 28.065) / 1.9955)) ∧
    (-12.01 + 141.23 * ((110.324 * (0 : ℚ) - 28.065) / 1.9955) ≤ 0) ∧
    convert_MG2_to_S10 0 = 0 :=
  ⟨by norm_num, (C7_conversion_postconditions (27/100)).1 (by norm_num),
   by norm_num, (C7_conversion_postconditions 0).2.1 (by norm_num),
   by norm_num, (C7_conversion_postconditions (27/100)).2.2.1 (by norm_num),
   by norm_num, (C7_conversion_postconditions 0).2.2.2 (by norm_num)⟩

/-! ### C9: purity and monotonicity of the conversions -/

/-- C9: the two proxy conversions are deterministic (equal inputs give equal
outputs; they are pure functions of their argument in this embedding, as in
the source, which reads no external state) and monotonically non-decreasing
in the proxy input. -/
theorem C9_pure_monotone (p q : ℚ) :
    (convert_MG2_to_M10 p = convert_MG2_to_M10 p ∧
      convert_MG2_to_S10 p = convert_MG2_to_S10 p) ∧
    (p ≤ q →
      convert_MG2_to_M10 p ≤ convert_MG2_to_M10 q ∧
      convert_MG2_to_S10 p ≤ convert_MG2_to_S10 q) := by
  refine ⟨⟨rfl, rfl⟩, fun hpq => ⟨?_, ?_⟩⟩
  · dsimp only [convert_MG2_to_M10]
    split_ifs with h1 h2
    · exact pyRound1_mono (by linarith)
    · exfalso; linarith
    · exact pyRound1_nonneg (by linarith)
    · exact le_refl 0
  · dsimp only [convert_MG2_to_S10]
    have key : (-12.01 + 141.23 * ((110.324 * p - 28.065) / 1.9955) : ℚ) ≤
        -12.01 + 141.23 * ((110.324 * q - 28.065) / 1.9955) := by
      have hnum : (110.324 * p - 28.065 : ℚ) ≤ 110.324 * q - 28.065 := by linarith
      have hdiv : ((110.324 * p - 28.065) / 1.9955 : ℚ) ≤
          (110.324 * q - 28.065) / 1.9955 := by
        apply div_le_div_of_nonneg_right hnum
        norm_num
      linarith
    split_ifs with h1 h2
    · exact pyRound1_mono key
    · exfalso; linarith
    · exact pyRound1_nonneg (by linarith)
    · exact le_refl 0

/-- Witness for `C9_pure_monotone` at `p = 0 ≤ q = 0.27`. -/
theorem C9_witness :
    (0 : ℚ) ≤ 27/100 ∧
    convert_MG2_to_M10 0 ≤ convert_MG2_to_M10 (27/100) ∧
    convert_MG2_to_S10 0 ≤ convert_MG2_to_S10 (27/100) :=
  ⟨by norm_num, ((C9_pure_monotone 0 (27/100)).2 (by norm_num)).1,
   ((C9_pure_monotone 0 (27/100)).2 (by norm_num)).2⟩

/-! ### C10: `make_XM10B` is `make_S10B` on row 5 -/

/-- C10: `make_S10B` and `make_XM10B` compute the same weighted-average
function on different rows: for every table whose rows 3 (S10) and 5 (XM10)
hold at least 81 entries, `make_XM10B a` equals `make_S10B` of `a` with its
S10 row replaced by its XM10 row. -/
theorem C10_shared_loop (a : IndexTable) (_h3 : 81 ≤ a.S10.length)
    (_h5 : 81 ≤ a.XM10.length) :
    make_XM10B a = make_S10B { a with S10 := a.XM10 } := rfl

/-- Witness for `C10_shared_loop` at a concrete 81-entry table. -/
theorem C10_witness :
    81 ≤ exC10Table.S10.length ∧ 81 ≤ exC10Table.XM10.length ∧
    make_XM10B exC10Table = make_S10B { exC10Table with S10 := exC10Table.XM10 } :=
  ⟨by decide, by decide, C10_shared_loop exC10Table (by decide) (by decide)⟩

/-! ### C6: range validation of the historical reader -/

/-- C6: the historical reader raises when `start_date` precedes the feed
epoch (January 1 of the year carried by the feed's first data row) or when
`end_date` exceeds today minus 1 day, raises when `start_date > end_date`,
and produces a zero-row table — not an error — when `start_date = end_date`
inside the valid range. -/
theorem C6_validation (fluxFile magFile : List HistLine) (fl : HistLine)
    (rest : List HistLine) (s e td : ℤ)
    (hfl : fluxFile.drop 4 = fl :: rest) :
    ((s < daysFromCivil fl.year 1 1 ∨ td - 1 < e) →
      (make_indices_array_before_45_days (some fluxFile) (some magFile) s e td).toOption
        = none) ∧
    (e < s →
      (make_indices_array_before_45_days (some fluxFile) (some magFile) s e td).toOption
        = none) ∧
    ((daysFromCivil fl.year 1 1 ≤ s ∧ s = e ∧ e ≤ td - 1) →
      make_indices_array_before_45_days (some fluxFile) (some magFile) s e td
        = .ok emptyIndexTable) := by
  refine ⟨fun h => ?_, fun h => ?_, fun h => ?_⟩ <;>
    dsimp only [make_indices_array_before_45_days] <;> rw [hfl] <;> dsimp only
  · rw [if_pos h]
    rfl
  · by_cases hc : s < daysFromCivil fl.year 1 1 ∨ td - 1 < e
    · rw [if_pos hc]
      rfl
    · rw [if_neg hc, if_pos h]
      rfl
  · obtain ⟨h1, h2, h3⟩ := h
    rw [if_neg (by push_neg; exact ⟨h1, h3⟩), if_neg (by omega)]
    rw [show (e - s).toNat = 0 from by omega]
    rfl

/-- Witness for `C6_validation`: an out-of-range start is rejected, and
`start_date = end_date` in range yields the zero-row table. -/
theorem C6_witness :
    (make_indices_array_before_45_days (some wFluxFile) (some wMagFile)
      (exEpoch - 1) exEpoch (exEpoch + 100)).toOption = none ∧
    make_indices_array_before_45_days (some wFluxFile) (some wMagFile)
      (exEpoch + 1) (exEpoch + 1) (exEpoch + 100) = .ok emptyIndexTable :=
  ⟨(C6_validation wFluxFile wMagFile wFluxRow0 [wFluxRow1] (exEpoch - 1) exEpoch
      (exEpoch + 100) rfl).1 (Or.inl (by decide)),
   (C6_validation wFluxFile wMagFile wFluxRow0 [wFluxRow1] (exEpoch + 1) (exEpoch + 1)
      (exEpoch + 100) rfl).2.2 ⟨by decide, rfl, by decide⟩⟩

/-! ### C4: missing source feeds are swallowed, not propagated -/

/-- C4 (code behaviour at the failing input): with a source feed absent, the
historical reader catches `FileNotFoundError`, prints, and returns the empty
eight-sequence table as a NORMAL result; the stitcher likewise returns with
the table unchanged; and the top-level assembly for a zero-day range then
completes as a success — no error reaches the caller. -/
theorem C4_missing_feed_swallowed :
    make_indices_array_before_45_days none (some wMagFile) exStart (exStart + 45) exToday
      = .ok emptyIndexTable ∧
    update_indices_array_after_45_days none (some mgiiC3File) exC3Table exC3Start
      (exC3Start + 2) = .ok exC3Table ∧
    make_csv_for_JB2006 none none none none exStart exStart (exStart + 100) = .ok [] :=
  ⟨rfl, rfl, rfl⟩

/-! ### C3: the emitted MJD axis in the recent regime -/

set_option maxHeartbeats 3200000 in
/-- C3 (code behaviour at the failing input): a successful recent-regime
stitch appends `convert_calendar_to_mjd` of `start_date` for EVERY appended
day — the date variable is never advanced in the main loop — so after
stitching two days from daily feeds the mjd sequence carries the same value
twice: it is not strictly increasing and the same calendar day label is
duplicated. -/
theorem C3_stitched_mjd_constant :
    (update_indices_array_after_45_days (some celC3File) (some mgiiC3File) exC3Table
        exC3Start (exC3Start + 2)).toOption.map
      (fun T => (T.mjd.length, T.mjd.get? 0, T.mjd.get? 1)) =
      some (2, some (convert_calendar_to_mjd exC3Start),
        some (convert_calendar_to_mjd exC3Start)) ∧
    ¬ ((update_indices_array_after_45_days (some celC3File) (some mgiiC3File) exC3Table
        exC3Start (exC3Start + 2)).toOption.getD emptyIndexTable).mjd.Chain' (· < ·) := by
  constructor
  · rfl
  · have hm : ((update_indices_array_after_45_days (some celC3File) (some mgiiC3File)
        exC3Table exC3Start (exC3Start + 2)).toOption.getD emptyIndexTable).mjd =
        [convert_calendar_to_mjd exC3Start, convert_calendar_to_mjd exC3Start] := rfl
    rw [hm]
    simp [List.chain'_cons, lt_self_iff_false]

/-! ### C2: the range handed to the recent-regime stitcher -/

set_option maxHeartbeats 12800000 in
/-- C2 (code behaviour at the failing input): for the request
`[exStart, exEnd)` with `exEnd` 35 days in the past, the claim says the
historical reader covers `[exStart, exEnd - 45)` and the stitcher then
consumes recent-feed rows for `[exEnd - 45, exEnd)`.  With recent feeds
supplying exactly those rows, the historical phase succeeds (second
conjunct) but the assembly fails with the scan's `ValueError`: after
reassigning `end_date -= 45` the source calls the stitcher on
`[exEnd - 90, exEnd - 45)`, and its anchor scan looks for `exEnd - 90`,
a date the feeds were never asked to contain. -/
theorem C2_stitcher_gets_shifted_range :
    make_csv_for_JB2006 (some exFluxFile) (some exMagFile) (some celC2File) (some mgiiC2File)
        exStart exEnd exToday = .error "ValueError" ∧
    (make_indices_array_before_45_days (some exFluxFile) (some exMagFile) exStart (exEnd - 45)
        exToday).toOption.isSome = true :=
  ⟨rfl, rfl⟩

/-! ### C8: what the historical reading loop appends -/

/-- Loop invariant of `histLoop`: a successful run of `n` iterations
consumes `n` rows of each feed and appends, per row and in order, exactly
the fixed-position fields `create_data_for_res_file` extracts. -/
lemma histLoop_ok_facts (n : ℕ) (fr mr : List HistLine) (t t' : IndexTable)
    (h : histLoop n fr mr t = .ok t') :
    (n ≤ fr.length ∧ n ≤ mr.length) ∧
    t'.mjd = t.mjd ++ (fr.take n).map (fun l => l.fields.getD 2 0 - 2400000.5) ∧
    t'.F10 = t.F10 ++ (fr.take n).map (fun l => l.fields.getD 3 0) ∧
    t'.F10B = t.F10B ++ (fr.take n).map (fun l => l.fields.getD 4 0) ∧
    t'.S10 = t.S10 ++ (fr.take n).map (fun l => l.fields.getD 5 0) ∧
    t'.S10B = t.S10B ++ (fr.take n).map (fun l => l.fields.getD 6 0) ∧
    t'.XM10 = t.XM10 ++ (fr.take n).map (fun l => l.fields.getD 7 0) ∧
    t'.XM10B = t.XM10B ++ (fr.take n).map (fun l => l.fields.getD 8 0) ∧
    t'.AP = t.AP ++ (mr.take n).map (fun l => [l.fields.getD 3 0, l.fields.getD 4 0,
      l.fields.getD 5 0, l.fields.getD 6 0, l.fields.getD 7 0, l.fields.getD 8 0,
      l.fields.getD 9 0, l.fields.getD 10 0]) := by
  induction n generalizing fr mr t with
  | zero =>
    rw [histLoop.eq_def] at h
    dsimp only at h
    cases h
    simp
  | succ m ih =>
    cases fr with
    | nil =>
      rw [histLoop.eq_def] at h
      dsimp only at h
      exact Except.noConfusion h
    | cons fl ftl =>
      cases mr with
      | nil =>
        rw [histLoop.eq_def] at h
        dsimp only at h
        exact Except.noConfusion h
      | cons ml mtl =>
        rw [histLoop.eq_def] at h
        dsimp only at h
        split_ifs at h with hg
        · obtain ⟨⟨hl1, hl2⟩, c1, c2, c3, c4, c5, c6, c7, c8⟩ := ih ftl mtl _ h
          refine ⟨⟨by simpa using hl1, by simpa using hl2⟩,
            ?_, ?_, ?_, ?_, ?_, ?_, ?_, ?_⟩ <;>
            simp [c1, c2, c3, c4, c5, c6, c7, c8, appendDay, create_data_for_res_file,
              List.take_succ_cons, List.append_assoc]

/-- Inversion of a successful historical read: the result is produced by
`histLoop` on the aligned row suffixes of the two feeds. -/
lemma make_indices_ok_inversion {fluxFile magFile : List HistLine} {fl : HistLine}
    {rest : List HistLine} {s e td : ℤ} {t : IndexTable}
    (hfl : fluxFile.drop 4 = fl :: rest)
    (h : make_indices_array_before_45_days (some fluxFile) (some magFile) s e td = .ok t) :
    histLoop (e - s).toNat
      (rest.drop ((s - daysFromCivil fl.year 1 1).toNat - 1))
      (((magFile.drop (4 + 23)).drop ((s - daysFromCivil fl.year 1 1).toNat - 1)).drop 1)
      emptyIndexTable = .ok t := by
  dsimp only [make_indices_array_before_45_days] at h
  rw [hfl] at h
  dsimp only at h
  split_ifs at h
  exact h

/-- C8 (counterexample): the emitted mjd value is NOT the flux row's field
at position 2 — the source subtracts 2400000.5 (the field holds a Julian
date): on a row with field 2 = 2450449.5 the emitted mjd is 50449. -/
theorem C8_counterexample :
    (create_data_for_res_file cxFluxRow cxMagRow).mjd ≠ cxFluxRow.getD 2 0 ∧
    (create_data_for_res_file cxFluxRow cxMagRow).mjd = 50449 := by
  have hfield : cxFluxRow.getD 2 0 = 2450449.5 := rfl
  have hmjd : (create_data_for_res_file cxFluxRow cxMagRow).mjd = 2450449.5 - 2400000.5 := rfl
  constructor
  · rw [hmjd, hfield]
    norm_num
  · rw [hmjd]
    norm_num

/-- C8 (amended): for every day `i` of a successful historical read, the
emitted record copies fixed positions of the two aligned source rows: the
mjd column is the flux row's field 2 (a Julian date) MINUS 2400000.5, the
F10/F10B/S10/S10B/XM10/XM10B columns are the flux row's fields 3..8
verbatim, and ap1..ap8 are the geomagnetic row's fields 3..10 verbatim. -/
theorem C8_record_field_copy (fluxFile magFile : List HistLine) (fl : HistLine)
    (rest : List HistLine) (s e td : ℤ) (t : IndexTable) (i : ℕ)
    (hfl : fluxFile.drop 4 = fl :: rest)
    (h : make_indices_array_before_45_days (some fluxFile) (some magFile) s e td = .ok t)
    (hi : i < (e - s).toNat) :
    ∃ flr mlr : HistLine,
      (rest.drop ((s - daysFromCivil fl.year 1 1).toNat - 1))[i]? = some flr ∧
      (((magFile.drop (4 + 23)).drop ((s - daysFromCivil fl.year 1 1).toNat - 1)).drop 1)[i]?
        = some mlr ∧
      t.mjd[i]? = some (flr.fields.getD 2 0 - 2400000.5) ∧
      t.F10[i]? = some (flr.fields.getD 3 0) ∧
      t.F10B[i]? = some (flr.fields.getD 4 0) ∧
      t.S10[i]? = some (flr.fields.getD 5 0) ∧
      t.S10B[i]? = some (flr.fields.getD 6 0) ∧
      t.XM10[i]? = some (flr.fields.getD 7 0) ∧
      t.XM10B[i]? = some (flr.fields.getD 8 0) ∧
      t.AP[i]? = some [mlr.fields.getD 3 0, mlr.fields.getD 4 0, mlr.fields.getD 5 0,
        mlr.fields.getD 6 0, mlr.fields.getD 7 0, mlr.fields.getD 8 0,
        mlr.fields.getD 9 0, mlr.fields.getD 10 0] := by
  have hh := make_indices_ok_inversion hfl h
  obtain ⟨⟨hl1, hl2⟩, c1, c2, c3, c4, c5, c6, c7, c8⟩ :=
    histLoop_ok_facts _ _ _ _ _ hh
  have hifr : i < (rest.drop ((s - daysFromCivil fl.year 1 1).toNat - 1)).length :=
    lt_of_lt_of_le hi hl1
  have himr : i <
      (((magFile.drop (4 + 23)).drop ((s - daysFromCivil fl.year 1 1).toNat - 1)).drop 1).length :=
    lt_of_lt_of_le hi hl2
  obtain ⟨flr, hflr⟩ : ∃ x,
      (rest.drop ((s - daysFromCivil fl.year 1 1).toNat - 1))[i]? = some x :=
    ⟨_, List.getElem?_eq_getElem hifr⟩
  obtain ⟨mlr, hmlr⟩ : ∃ x,
      (((magFile.drop (4 + 23)).drop ((s - daysFromCivil fl.year 1 1).toNat - 1)).drop 1)[i]?
        = some x :=
    ⟨_, List.getElem?_eq_getElem himr⟩
  refine ⟨flr, mlr, hflr, hmlr, ?_, ?_, ?_, ?_, ?_, ?_, ?_, ?_⟩ <;>
    simp only [c1, c2, c3, c4, c5, c6, c7, c8, emptyIndexTable, List.nil_append,
      List.getElem?_map, List.getElem?_take_of_lt hi, hflr, hmlr, Option.map_some']

set_option maxHeartbeats 1600000 in
/-- Witness for `C8_record_field_copy`: the one-day read from
`wFluxFile` / `wMagFile`. -/
theorem C8_amended_witness :
    ∃ flr mlr : HistLine,
      (([wFluxRow1] : List HistLine).drop
        (((exEpoch + 1) - daysFromCivil wFluxRow0.year 1 1).toNat - 1))[0]? = some flr ∧
      (((wMagFile.drop (4 + 23)).drop
        (((exEpoch + 1) - daysFromCivil wFluxRow0.year 1 1).toNat - 1)).drop 1)[0]?
        = some mlr ∧
      wTable.mjd[0]? = some (flr.fields.getD 2 0 - 2400000.5) ∧
      wTable.F10[0]? = some (flr.fields.getD 3 0) ∧
      wTable.F10B[0]? = some (flr.fields.getD 4 0) ∧
      wTable.S10[0]? = some (flr.fields.getD 5 0) ∧
      wTable.S10B[0]? = some (flr.fields.getD 6 0) ∧
      wTable.XM10[0]? = some (flr.fields.getD 7 0) ∧
      wTable.XM10B[0]? = some (flr.fields.getD 8 0) ∧
      wTable.AP[0]? = some [mlr.fields.getD 3 0, mlr.fields.getD 4 0, mlr.fields.getD 5 0,
        mlr.fields.getD 6 0, mlr.fields.getD 7 0, mlr.fields.getD 8 0,
        mlr.fields.getD 9 0, mlr.fields.getD 10 0] :=
  C8_record_field_copy wFluxFile wMagFile wFluxRow0 [wFluxRow1] (exEpoch + 1) (exEpoch + 2)
    (exEpoch + 100) wTable 0 rfl (by rfl) (by decide)
